import Mathlib

/-!
Shallow embedding of the Strands workflow orchestration engine
(src/nist_mcp/workflows/strands.py): step execution, the strand main
loop, and the orchestrator registry, together with theorems settling
the specification claims about them.

Python dicts keyed by step id are modelled as lists of steps in
insertion order; the shared mutable context and the asynchronous
action calls are modelled by a behaviour environment that, given a
step id and its current attempt count, yields the outcome of the skip
condition and of the action call (return value, raised exception, or
timeout).  Storage.record_workflow_run is modelled as appending a run
record to a trace.
-/

namespace NistMcp

/-- StepStatus enum from strands.py. -/
inductive StepStatus
  | pending
  | running
  | completed
  | failed
  | skipped
deriving DecidableEq, Repr

/-- WorkflowStatus enum from strands.py. -/
inductive WorkflowStatus
  | pending
  | running
  | completed
  | failed
  | cancelled
deriving DecidableEq, Repr

/-- Outcome of evaluating the optional skip condition of a step against
the workflow context: the step has no condition, the condition holds,
the condition is falsy, or evaluating it raised an exception. -/
inductive CondOutcome
  | noCond
  | met
  | notMet
  | raises (msg : String)
deriving DecidableEq, Repr

/-- Outcome of awaiting the action of a step under asyncio.wait_for:
a returned payload, a raised exception, or a timeout. -/
inductive ActOutcome
  | ok (payload : String)
  | raises (msg : String)
  | timeout
deriving DecidableEq, Repr

/-- The structured value returned by WorkflowStep.execute: the skipped
payload, the action result, or the error payload built in the two
except branches. -/
inductive StepPayload
  | skippedPayload
  | resultPayload (v : String)
  | errorPayload (err : String)
deriving DecidableEq, Repr

/-- Mutable state and configuration of one WorkflowStep.  The action
callable, parameters and condition callable are represented through the
behaviour environment, not stored here; completed_at is not modelled. -/
structure WorkflowStep where
  step_id : String
  depends_on : List String
  retry_count : Nat
  timeout_seconds : Nat
  status : StepStatus
  result : Option String
  error : Option String
  attempts : Nat
deriving DecidableEq, Repr

/-- The error string built in the asyncio.TimeoutError branch of
WorkflowStep.execute. -/
def timeoutMsg (secs : Nat) : String :=
  "Step timed out after " ++ toString secs ++ " seconds"

/-- WorkflowStep.execute: checks the condition, marks the step running,
increments attempts, awaits the action, and maps every exceptional path
into a Failed status with a returned error payload.  Returns the updated
step together with the returned value; there is no exceptional return. -/
def WorkflowStep.execute (s : WorkflowStep) (cond : CondOutcome)
    (act : ActOutcome) : WorkflowStep × StepPayload :=
  match cond with
  | .notMet =>
      ({ s with status := .skipped }, .skippedPayload)
  | .raises msg =>
      ({ s with status := .failed, error := some msg }, .errorPayload msg)
  | _ =>
      let s1 := { s with status := StepStatus.running,
                         attempts := s.attempts + 1 }
      match act with
      | .ok v =>
          ({ s1 with status := .completed, result := some v },
           .resultPayload v)
      | .timeout =>
          ({ s1 with status := .failed,
                     error := some (timeoutMsg s.timeout_seconds) },
           .errorPayload (timeoutMsg s.timeout_seconds))
      | .raises msg =>
          ({ s1 with status := .failed, error := some msg },
           .errorPayload msg)

/-- The set of ids of currently Completed steps, as computed at the top
of WorkflowStrand.get_executable_steps. -/
def completedIds (steps : List WorkflowStep) : List String :=
  (steps.filter (fun s => s.status == StepStatus.completed)).map
    (fun s => s.step_id)

/-- WorkflowStrand.get_executable_steps: the Pending steps all of whose
dependencies are ids of Completed steps. -/
def get_executable_steps (steps : List WorkflowStep) : List WorkflowStep :=
  steps.filter (fun s =>
    s.status == StepStatus.pending &&
      s.depends_on.all (fun d => (completedIds steps).contains d))

/-- Behaviour environment: for a step id and its attempt counter at the
moment of invocation, the outcome of the skip condition and of the
action call for that invocation. -/
def Behaviour := String → Nat → CondOutcome × ActOutcome

/-- One pass of the body of the main loop when the executable set is
non-empty: every step of the executable set is executed (the asyncio
gather over the wave) and replaced by its updated state; all other
steps are untouched. -/
def runWave (beh : Behaviour) (steps : List WorkflowStep) :
    List WorkflowStep :=
  let ex := (get_executable_steps steps).map (fun s => s.step_id)
  steps.map (fun s =>
    if ex.contains s.step_id then
      let b := beh s.step_id s.attempts
      (WorkflowStep.execute s b.1 b.2).1
    else s)

/-- The all-Completed-or-Skipped test of the main loop. -/
def allTerminal (steps : List WorkflowStep) : Bool :=
  steps.all (fun s =>
    s.status == StepStatus.completed || s.status == StepStatus.skipped)

/-- The failed_steps list of the main loop: Failed steps whose
retry_count is at least their attempts counter, exactly as the source
comparison `step.retry_count >= step.attempts` reads. -/
def blockedFailed (steps : List WorkflowStep) : List WorkflowStep :=
  steps.filter (fun s =>
    s.status == StepStatus.failed && decide (s.retry_count ≥ s.attempts))

/-- How one run of the main loop of WorkflowStrand.execute ends:
normal break with all steps terminal, the raised unresolved-failures
exception naming the listed step ids, or the iteration bound ran out
(the fuel parameter models time spent; a run that is fuelOut for every
fuel is a run that never terminates). -/
inductive LoopOut
  | done
  | stuck (ids : List String)
  | fuelOut
deriving DecidableEq, Repr

/-- The main while-loop of WorkflowStrand.execute, with an explicit
iteration bound.  Each iteration recomputes the executable set; when it
is empty the loop breaks if all steps are terminal, raises if
failed_steps is non-empty, and otherwise sleeps one second and
re-evaluates (consuming one unit of fuel with the state unchanged). -/
def execLoop (beh : Behaviour) : Nat → List WorkflowStep →
    List WorkflowStep × LoopOut
  | 0, steps => (steps, .fuelOut)
  | fuel + 1, steps =>
      let ex := get_executable_steps steps
      if ex.isEmpty then
        if allTerminal steps then (steps, .done)
        else if (blockedFailed steps).isEmpty then
          execLoop beh fuel steps
        else
          (steps, .stuck ((blockedFailed steps).map (fun s => s.step_id)))
      else
        execLoop beh fuel (runWave beh steps)

/-- One record handed to HistoricalStorage.record_workflow_run: the
workflow id, the status field, and the optional serialized results or
error_message field. -/
structure RunRecord where
  workflow_id : String
  status : String
  info : Option String
deriving DecidableEq, Repr

/-- A WorkflowStrand: the id→step mapping is kept as the list of steps
in insertion order; storage, monitor and data_loader handles and the
shared context are modelled through the behaviour environment and the
run-record trace. -/
structure WorkflowStrand where
  strand_id : String
  name : String
  description : String
  target_controls : List String
  steps : List WorkflowStep
  status : WorkflowStatus
  errors : List String
deriving DecidableEq, Repr

/-- The error message of the exception raised on unresolved failures,
wrapped by the outer except branch of WorkflowStrand.execute. -/
def stuckMsg (ids : List String) : String :=
  "Workflow failed: Unresolved failures in steps: " ++ toString ids

/-- Serialized per-step outcomes of _generate_final_results, as stored
in the completed run record. -/
def serializeResults (steps : List WorkflowStep) : String :=
  toString (steps.map (fun s => (s.step_id, reprStr s.status, s.attempts)))

/-- How a call of WorkflowStrand.execute ends: a returned result, a
raised exception, or no termination within the iteration bound. -/
inductive ExecOutcome
  | ok
  | raised (msg : String)
  | diverged
deriving DecidableEq, Repr

/-- WorkflowStrand.execute: records the running run record, drives the
main loop, and on termination sets the strand status and records the
terminal run record; the raised exception of the failure path is
re-raised to the caller.  Returns the updated strand, the trace of
run-store writes of this call, and how the call ended. -/
def WorkflowStrand.execute (beh : Behaviour) (fuel : Nat)
    (st : WorkflowStrand) : WorkflowStrand × List RunRecord × ExecOutcome :=
  let startRec : RunRecord := ⟨st.strand_id, "running", none⟩
  match execLoop beh fuel st.steps with
  | (steps1, .done) =>
      ({ st with steps := steps1, status := .completed },
       [startRec, ⟨st.strand_id, "completed", some (serializeResults steps1)⟩],
       .ok)
  | (steps1, .stuck ids) =>
      ({ st with steps := steps1, status := .failed },
       [startRec, ⟨st.strand_id, "failed", some (stuckMsg ids)⟩],
       .raised (stuckMsg ids))
  | (steps1, .fuelOut) =>
      ({ st with steps := steps1, status := .running }, [startRec], .diverged)

/-- One registered strand definition: display name, description, and
the step builder (target_controls and keyword arguments folded into one
function argument). -/
structure StrandDefinition where
  name : String
  description : String
  step_builder : List String → List WorkflowStep

/-- StrandsOrchestrator state: the active_strands and
strand_definitions dicts as association lists in insertion order,
together with the run-store trace of all records written so far. -/
structure StrandsOrchestrator where
  active_strands : List (String × WorkflowStrand)
  strand_definitions : List (String × StrandDefinition)
  store : List RunRecord

/-- Dict lookup in strand_definitions. -/
def lookupDef (o : StrandsOrchestrator) (strand_type : String) :
    Option StrandDefinition :=
  (o.strand_definitions.find? (fun p => p.1 == strand_type)).map
    (fun p => p.2)

/-- The strand id generated in create_strand from the strand type and
the current timestamp string. -/
def newStrandId (strand_type time : String) : String :=
  "strand_" ++ strand_type ++ "_" ++ time

/-- StrandsOrchestrator.create_strand: raises a ValueError on an
unregistered strand type; otherwise builds the steps via the
definition step_builder, constructs the strand with Pending status,
adds it to active_strands, and returns it without executing it. -/
def create_strand (o : StrandsOrchestrator) (strand_type : String)
    (target_controls : List String) (time : String) :
    Except String (StrandsOrchestrator × WorkflowStrand) :=
  match lookupDef o strand_type with
  | none => .error ("Unknown strand type: " ++ strand_type)
  | some d =>
      let sid := newStrandId strand_type time
      let strand : WorkflowStrand :=
        { strand_id := sid
          name := d.name
          description := d.description
          target_controls := target_controls
          steps := d.step_builder target_controls
          status := .pending
          errors := [] }
      .ok ({ o with active_strands := o.active_strands ++ [(sid, strand)] },
           strand)

/-- StrandsOrchestrator.execute_strand_async: awaits strand.execute and
in the finally block deletes the strand from active_strands when its
status is Completed or Failed.  The run records written by execute are
appended to the store trace. -/
def execute_strand_async (o : StrandsOrchestrator) (beh : Behaviour)
    (fuel : Nat) (st : WorkflowStrand) :
    StrandsOrchestrator × WorkflowStrand × ExecOutcome :=
  let r := WorkflowStrand.execute beh fuel st
  let st1 := r.1
  let o1 := { o with store := o.store ++ r.2.1 }
  let o2 :=
    if st1.status == WorkflowStatus.completed ||
        st1.status == WorkflowStatus.failed then
      { o1 with active_strands :=
          o1.active_strands.filter (fun p => !(p.1 == st1.strand_id)) }
    else o1
  (o2, st1, r.2.2)

/-- The snapshot returned by get_strand_status for an active strand;
the fractional progress is kept as the numerator and denominator of
the division the source performs. -/
structure StrandStatusView where
  strand_id : String
  name : String
  status : WorkflowStatus
  progressNum : Nat
  progressDen : Nat
  errors : List String
deriving DecidableEq, Repr

/-- StrandsOrchestrator.get_strand_status: None for an inactive id;
otherwise a snapshot whose progress divides the Completed-step count by
the total step count — a division that raises ZeroDivisionError when
the strand has no steps, modelled as the error branch. -/
def get_strand_status (o : StrandsOrchestrator) (sid : String) :
    Except String (Option StrandStatusView) :=
  match (o.active_strands.find? (fun p => p.1 == sid)).map (fun p => p.2) with
  | none => .ok none
  | some st =>
      if st.steps.length = 0 then .error "division by zero"
      else
        .ok (some
          { strand_id := sid
            name := st.name
            status := st.status
            progressNum :=
              (st.steps.filter
                (fun s => s.status == StepStatus.completed)).length
            progressDen := st.steps.length
            errors := st.errors })

/-- The list comprehension of get_active_strands: statuses of all
active strand ids in order; an exception from get_strand_status
propagates out of the comprehension. -/
def collectStatuses (o : StrandsOrchestrator) :
    List (String × WorkflowStrand) →
    Except String (List (Option StrandStatusView))
  | [] => .ok []
  | p :: rest =>
      match get_strand_status o p.1 with
      | .error e => .error e
      | .ok v =>
          match collectStatuses o rest with
          | .error e => .error e
          | .ok vs => .ok (v :: vs)

/-- StrandsOrchestrator.get_active_strands. -/
def get_active_strands (o : StrandsOrchestrator) :
    Except String (List (Option StrandStatusView)) :=
  collectStatuses o o.active_strands

/-- One remediation action dict built by remediation_planning_step. -/
structure RemediationAction where
  control_id : String
  action_type : String
  priority : String
  description : String
deriving DecidableEq, Repr

/-- The pure core of remediation_planning_step: from the
missing-controls list of the gap analysis result and the monitoring
results (control id paired with the status field of its check result),
the remediation_plan list it stores into the context — implement
actions for every missing control followed by remediate actions for
every monitoring check whose status is "fail". -/
def remediationActions (missing_controls : List String)
    (monitoring_results : List (String × String)) :
    List RemediationAction :=
  (missing_controls.map (fun c =>
    { control_id := c
      action_type := "implement"
      priority := "high"
      description := "Implement missing control " ++ c })) ++
  ((monitoring_results.filter (fun p => p.2 == "fail")).map (fun p =>
    { control_id := p.1
      action_type := "remediate"
      priority := "critical"
      description := "Address monitoring failure for " ++ p.1 }))

/-! ## Concrete scenarios for the loop claims -/

/-- A freshly constructed step as WorkflowStep.__init__ builds it. -/
def mkStep (id : String) (deps : List String) (rc : Nat) : WorkflowStep :=
  { step_id := id
    depends_on := deps
    retry_count := rc
    timeout_seconds := 300
    status := .pending
    result := none
    error := none
    attempts := 0 }

/-- A behaviour whose action always raises, for every step and every
attempt. -/
def alwaysRaise : Behaviour := fun _ _ => (.noCond, .raises "boom")

/-- Two steps forming a dependency cycle: A depends on B and B on A. -/
def cyclicSteps : List WorkflowStep :=
  [mkStep "A" ["B"] 0, mkStep "B" ["A"] 0]

/-- A single dependency-free step with retry_count 0 whose action
always raises. -/
def exhaustedSteps : List WorkflowStep := [mkStep "s" [] 0]

/-- The state of exhaustedSteps after the first wave: the step is
Failed with attempts 1 and a captured error. -/
def exhaustedFailed : List WorkflowStep := runWave alwaysRaise exhaustedSteps

/-- A single dependency-free step with retry_count 2 whose action
always raises. -/
def retrySteps : List WorkflowStep := [mkStep "s" [] 2]

/-! ## Theorems about the claims -/

/-- C4: WorkflowStep.execute never raises to its caller: every
exceptional path is mapped to a returned value.  A timeout sets the
status to Failed with an error message recording the timeout and
returns an error payload; an exception raised by the action, or by the
skip condition, sets the status to Failed with the error captured as a
string and returns an error payload. -/
theorem step_execute_never_raises (s : WorkflowStep) (msg : String)
    (act : ActOutcome) :
    ((WorkflowStep.execute s (.raises msg) act).1.status = .failed ∧
     (WorkflowStep.execute s (.raises msg) act).1.error = some msg ∧
     (WorkflowStep.execute s (.raises msg) act).2 = .errorPayload msg) ∧
    ((WorkflowStep.execute s .noCond .timeout).1.status = .failed ∧
     (WorkflowStep.execute s .noCond .timeout).1.error =
       some (timeoutMsg s.timeout_seconds) ∧
     (WorkflowStep.execute s .noCond .timeout).2 =
       .errorPayload (timeoutMsg s.timeout_seconds)) ∧
    ((WorkflowStep.execute s .met .timeout).1.status = .failed ∧
     (WorkflowStep.execute s .met .timeout).1.error =
       some (timeoutMsg s.timeout_seconds) ∧
     (WorkflowStep.execute s .met .timeout).2 =
       .errorPayload (timeoutMsg s.timeout_seconds)) ∧
    ((WorkflowStep.execute s .noCond (.raises msg)).1.status = .failed ∧
     (WorkflowStep.execute s .noCond (.raises msg)).1.error = some msg ∧
     (WorkflowStep.execute s .noCond (.raises msg)).2 =
       .errorPayload msg) ∧
    ((WorkflowStep.execute s .met (.raises msg)).1.status = .failed ∧
     (WorkflowStep.execute s .met (.raises msg)).1.error = some msg ∧
     (WorkflowStep.execute s .met (.raises msg)).2 = .errorPayload msg) :=
  ⟨⟨rfl, rfl, rfl⟩, ⟨rfl, rfl, rfl⟩, ⟨rfl, rfl, rfl⟩, ⟨rfl, rfl, rfl⟩,
   ⟨rfl, rfl, rfl⟩⟩

/-- C5: get_executable_steps returns exactly the steps whose status is
Pending and whose every declared dependency names a step of the strand
whose status is Completed; in particular a Skipped dependency does not
satisfy the edge and a dangling dependency is never satisfied. -/
theorem get_executable_steps_iff (steps : List WorkflowStep)
    (s : WorkflowStep) :
    s ∈ get_executable_steps steps ↔
      s ∈ steps ∧ s.status = StepStatus.pending ∧
        ∀ d ∈ s.depends_on, ∃ t, t ∈ steps ∧
          t.step_id = d ∧ t.status = StepStatus.completed := by
  have hmemCompleted : ∀ d : String, d ∈ completedIds steps ↔
      ∃ t, t ∈ steps ∧ t.step_id = d ∧ t.status = StepStatus.completed := by
    intro d
    simp only [completedIds, List.mem_map, List.mem_filter, beq_iff_eq]
    constructor
    · rintro ⟨t, ⟨ht, hc⟩, hid⟩
      exact ⟨t, ht, hid, hc⟩
    · rintro ⟨t, ht, hid, hc⟩
      exact ⟨t, ⟨ht, hc⟩, hid⟩
  simp only [get_executable_steps, List.mem_filter, Bool.and_eq_true,
    beq_iff_eq, List.all_eq_true]
  constructor
  · rintro ⟨hmem, hpend, hdeps⟩
    refine ⟨hmem, hpend, fun d hd => ?_⟩
    exact (hmemCompleted d).mp (List.elem_iff.mp (hdeps d hd))
  · rintro ⟨hmem, hpend, hdeps⟩
    refine ⟨hmem, hpend, fun d hd => ?_⟩
    exact List.elem_iff.mpr ((hmemCompleted d).mpr (hdeps d hd))

/-- C2: on a cyclic dependency graph the main loop makes no progress
and never terminates: for every iteration bound it runs out of fuel
with the step states unchanged, rather than raising a stuck-workflow
failure — no step is ever Failed, so the unresolved-failures branch is
never taken. -/
theorem cyclic_strand_loops_forever (fuel : Nat) :
    execLoop alwaysRaise fuel cyclicSteps = (cyclicSteps, LoopOut.fuelOut) := by
  induction fuel with
  | zero => rfl
  | succ n ih => exact ih

/-- After its single failed attempt, the exhausted step leaves the loop
spinning forever: the executable set is empty, not all steps are
terminal, and the failed_steps filter (retry_count at least attempts,
that is 0 at least 1) is empty, so the loop sleeps and re-evaluates
with an unchanged state. -/
theorem exhaustedFailed_spins (m : Nat) :
    execLoop alwaysRaise m exhaustedFailed = (exhaustedFailed, LoopOut.fuelOut) := by
  induction m with
  | zero => rfl
  | succ n ih => exact ih

/-- C1: the stuck check of the main loop is inverted with respect to
the claim.  A Failed step that has exhausted its retry budget
(retry_count 0, attempts 1) never triggers the terminal failure: the
loop runs out of fuel for every bound, sleeping forever.  Conversely a
Failed step whose budget is not exhausted (retry_count 2, attempts 1)
triggers the terminal failure naming it immediately. -/
theorem stuck_check_inverted :
    (∀ fuel, (execLoop alwaysRaise fuel exhaustedSteps).2 = LoopOut.fuelOut) ∧
    (execLoop alwaysRaise 3 retrySteps).2 = LoopOut.stuck ["s"] := by
  constructor
  · intro fuel
    match fuel with
    | 0 => rfl
    | n + 1 =>
        have h1 : execLoop alwaysRaise (n + 1) exhaustedSteps =
            execLoop alwaysRaise n exhaustedFailed := rfl
        rw [h1, exhaustedFailed_spins n]
  · decide

/-- C3: a step whose action always raises, with retry budget 2, is
attempted exactly once — not three times — before the run ends: the
loop never re-attempts a Failed step (only Pending steps are
executable and nothing resets a Failed step to Pending), and on the
iteration after the single failure it raises the unresolved-failures
exception naming the step. -/
theorem retry_budget_single_attempt :
    (execLoop alwaysRaise 5 retrySteps).2 = LoopOut.stuck ["s"] ∧
    (execLoop alwaysRaise 5 retrySteps).1.map (fun s => s.attempts) = [1] ∧
    (execLoop alwaysRaise 5 retrySteps).1.map (fun s => s.status) =
      [StepStatus.failed] := by
  decide

/-- C6: every terminating call of WorkflowStrand.execute writes exactly
two run records: first the start record with status running, written
before any step work, and then one terminal record for the same
workflow id whose status is completed on the success path or failed on
the failure path. -/
theorem run_store_two_writes (beh : Behaviour) (fuel : Nat)
    (st : WorkflowStrand)
    (h : (WorkflowStrand.execute beh fuel st).2.2 ≠ ExecOutcome.diverged) :
    ∃ r : RunRecord,
      (WorkflowStrand.execute beh fuel st).2.1 =
        [⟨st.strand_id, "running", none⟩, r] ∧
      r.workflow_id = st.strand_id ∧
      (r.status = "completed" ∨ r.status = "failed") := by
  rcases hl : execLoop beh fuel st.steps with ⟨steps1, out⟩
  cases out with
  | done =>
      refine ⟨⟨st.strand_id, "completed", some (serializeResults steps1)⟩,
        ?_, rfl, Or.inl rfl⟩
      simp only [WorkflowStrand.execute, hl]
  | stuck ids =>
      refine ⟨⟨st.strand_id, "failed", some (stuckMsg ids)⟩,
        ?_, rfl, Or.inr rfl⟩
      simp only [WorkflowStrand.execute, hl]
  | fuelOut =>
      exact absurd (by simp only [WorkflowStrand.execute, hl]) h

/-- A behaviour whose action always returns a payload. -/
def okBeh : Behaviour := fun _ _ => (.noCond, .ok "r")

/-- A strand with no steps, which the main loop finishes immediately. -/
def trivialStrand : WorkflowStrand :=
  { strand_id := "strand_t_1"
    name := "t"
    description := ""
    target_controls := []
    steps := []
    status := .pending
    errors := [] }

/-- Witness for run_store_two_writes at a concrete terminating run. -/
theorem run_store_two_writes_witness :
    (WorkflowStrand.execute okBeh 1 trivialStrand).2.2 ≠
      ExecOutcome.diverged ∧
    ∃ r : RunRecord,
      (WorkflowStrand.execute okBeh 1 trivialStrand).2.1 =
        [⟨trivialStrand.strand_id, "running", none⟩, r] ∧
      r.workflow_id = trivialStrand.strand_id ∧
      (r.status = "completed" ∨ r.status = "failed") :=
  ⟨by decide, run_store_two_writes okBeh 1 trivialStrand (by decide)⟩

/-- C7: create_strand on an unregistered strand type raises the
unknown-type error and writes nothing; on a registered type it builds
the steps via the step builder of that definition, constructs a strand
with the generated id and Pending status, appends it to the active
set, and returns it without executing it and without writing any run
record. -/
theorem create_strand_spec (o : StrandsOrchestrator) (strand_type : String)
    (target_controls : List String) (time : String) :
    match lookupDef o strand_type with
    | none =>
        create_strand o strand_type target_controls time =
          Except.error ("Unknown strand type: " ++ strand_type)
    | some d =>
        ∃ o1 strand,
          create_strand o strand_type target_controls time =
            Except.ok (o1, strand) ∧
          strand.status = WorkflowStatus.pending ∧
          strand.strand_id = newStrandId strand_type time ∧
          strand.steps = d.step_builder target_controls ∧
          strand.target_controls = target_controls ∧
          o1.store = o.store ∧
          o1.strand_definitions = o.strand_definitions ∧
          o1.active_strands =
            o.active_strands ++ [(strand.strand_id, strand)] := by
  rcases h : lookupDef o strand_type with _ | d
  · simp only [create_strand, h]
  · simp only [create_strand, h]
    exact ⟨_, _, rfl, rfl, rfl, rfl, rfl, rfl, rfl, rfl⟩

/-- C9: when a run driven by execute_strand_async terminates, the
strand status has reached Completed or Failed, and the strand id is no
longer in the active set afterwards — the cleanup runs on the success
path and on the path where execute raised alike. -/
theorem active_set_cleanup (o : StrandsOrchestrator) (beh : Behaviour)
    (fuel : Nat) (st : WorkflowStrand)
    (h : (execute_strand_async o beh fuel st).2.2 ≠ ExecOutcome.diverged) :
    ((execute_strand_async o beh fuel st).2.1.status =
        WorkflowStatus.completed ∨
     (execute_strand_async o beh fuel st).2.1.status =
        WorkflowStatus.failed) ∧
    ∀ p ∈ (execute_strand_async o beh fuel st).1.active_strands,
      p.1 ≠ (execute_strand_async o beh fuel st).2.1.strand_id := by
  rcases hl : execLoop beh fuel st.steps with ⟨steps1, out⟩
  cases out with
  | done =>
      have hw : execute_strand_async o beh fuel st =
          ({ o with
              store := o.store ++
                [⟨st.strand_id, "running", none⟩,
                 ⟨st.strand_id, "completed", some (serializeResults steps1)⟩]
              active_strands :=
                o.active_strands.filter (fun p => !(p.1 == st.strand_id)) },
           { st with steps := steps1, status := .completed },
           ExecOutcome.ok) := by
        simp only [execute_strand_async, WorkflowStrand.execute]
        rw [hl]
        rfl
      rw [hw]
      refine ⟨Or.inl rfl, fun p hp => ?_⟩
      rw [List.mem_filter] at hp
      simpa using hp.2
  | stuck ids =>
      have hw : execute_strand_async o beh fuel st =
          ({ o with
              store := o.store ++
                [⟨st.strand_id, "running", none⟩,
                 ⟨st.strand_id, "failed", some (stuckMsg ids)⟩]
              active_strands :=
                o.active_strands.filter (fun p => !(p.1 == st.strand_id)) },
           { st with steps := steps1, status := .failed },
           ExecOutcome.raised (stuckMsg ids)) := by
        simp only [execute_strand_async, WorkflowStrand.execute]
        rw [hl]
        rfl
      rw [hw]
      refine ⟨Or.inr rfl, fun p hp => ?_⟩
      rw [List.mem_filter] at hp
      simpa using hp.2
  | fuelOut =>
      have hw : (execute_strand_async o beh fuel st).2.2 =
          ExecOutcome.diverged := by
        simp only [execute_strand_async, WorkflowStrand.execute]
        rw [hl]
      exact absurd hw h

/-- Witness for active_set_cleanup at a concrete orchestrator holding
the strand it then executes. -/
theorem active_set_cleanup_witness :
    (execute_strand_async
        { active_strands := [("strand_t_1", trivialStrand)]
          strand_definitions := []
          store := [] } okBeh 1 trivialStrand).2.2 ≠
      ExecOutcome.diverged ∧
    (((execute_strand_async
        { active_strands := [("strand_t_1", trivialStrand)]
          strand_definitions := []
          store := [] } okBeh 1 trivialStrand).2.1.status =
        WorkflowStatus.completed ∨
      (execute_strand_async
        { active_strands := [("strand_t_1", trivialStrand)]
          strand_definitions := []
          store := [] } okBeh 1 trivialStrand).2.1.status =
        WorkflowStatus.failed) ∧
     ∀ p ∈ (execute_strand_async
        { active_strands := [("strand_t_1", trivialStrand)]
          strand_definitions := []
          store := [] } okBeh 1 trivialStrand).1.active_strands,
       p.1 ≠ (execute_strand_async
        { active_strands := [("strand_t_1", trivialStrand)]
          strand_definitions := []
          store := [] } okBeh 1 trivialStrand).2.1.strand_id) :=
  ⟨by decide,
   active_set_cleanup
     { active_strands := [("strand_t_1", trivialStrand)]
       strand_definitions := []
       store := [] } okBeh 1 trivialStrand (by decide)⟩

/-- Any error raised by get_strand_status is the division by zero of
the progress computation. -/
theorem get_strand_status_error_eq (o : StrandsOrchestrator) (sid : String)
    (e : String) (h : get_strand_status o sid = Except.error e) :
    e = "division by zero" := by
  unfold get_strand_status at h
  rcases hm : (o.active_strands.find? (fun p => p.1 == sid)).map
      (fun p => p.2) with _ | st
  · rw [hm] at h
    exact absurd h (by simp)
  · rw [hm] at h
    by_cases hz : st.steps.length = 0
    · simp only [hz, if_true] at h
      cases h
      rfl
    · simp [hz] at h

/-- If some active entry makes get_strand_status raise, the whole
comprehension of get_active_strands raises the division by zero. -/
theorem collectStatuses_error (o : StrandsOrchestrator)
    (l : List (String × WorkflowStrand))
    (h : ∃ p ∈ l, get_strand_status o p.1 = Except.error "division by zero") :
    collectStatuses o l = Except.error "division by zero" := by
  induction l with
  | nil => rcases h with ⟨p, hp, _⟩; cases hp
  | cons q rest ih =>
      rcases h with ⟨p, hp, hperr⟩
      rcases List.mem_cons.mp hp with rfl | hrest
      · simp only [collectStatuses, hperr]
      · rcases hq : get_strand_status o q.1 with e | v
        · rw [get_strand_status_error_eq o q.1 e hq] at hq
          simp only [collectStatuses, hq]
        · simp only [collectStatuses, hq, ih ⟨p, hrest, hperr⟩]

/-- C10: for an active strand whose step map is empty, get_strand_status
raises the division by zero of the fractional-progress computation
instead of returning a snapshot, and get_active_strands inherits the
same failure. -/
theorem empty_strand_division_by_zero (o : StrandsOrchestrator)
    (sid : String) (st : WorkflowStrand)
    (hfind : o.active_strands.find? (fun p => p.1 == sid) = some (sid, st))
    (hempty : st.steps = []) :
    get_strand_status o sid = Except.error "division by zero" ∧
    get_active_strands o = Except.error "division by zero" := by
  have h1 : get_strand_status o sid = Except.error "division by zero" := by
    unfold get_strand_status
    rw [hfind]
    simp [hempty]
  refine ⟨h1, ?_⟩
  unfold get_active_strands
  refine collectStatuses_error o o.active_strands ⟨(sid, st), ?_, h1⟩
  exact List.mem_of_find?_eq_some hfind

/-- A strand whose builder returned no steps. -/
def emptyStrand : WorkflowStrand :=
  { strand_id := "strand_e_1"
    name := "e"
    description := ""
    target_controls := []
    steps := []
    status := .pending
    errors := [] }

/-- An orchestrator whose active set holds only emptyStrand. -/
def emptyOrch : StrandsOrchestrator :=
  { active_strands := [("strand_e_1", emptyStrand)]
    strand_definitions := []
    store := [] }

/-- Witness for empty_strand_division_by_zero at a concrete
orchestrator. -/
theorem empty_strand_division_by_zero_witness :
    emptyOrch.active_strands.find? (fun p => p.1 == "strand_e_1") =
      some ("strand_e_1", emptyStrand) ∧
    emptyStrand.steps = [] ∧
    (get_strand_status emptyOrch "strand_e_1" =
        Except.error "division by zero" ∧
     get_active_strands emptyOrch = Except.error "division by zero") :=
  ⟨by decide, rfl,
   empty_strand_division_by_zero emptyOrch "strand_e_1" emptyStrand
     (by decide) rfl⟩

/-- C8 counterexample: the claim that every remediation-plan entry
names a control of the missing-controls list fails on the code: a
monitoring check result with status "fail" for a control that is not
missing produces a remediate action for it. -/
theorem remediation_plan_counterexample :
    ¬ ∀ a ∈ remediationActions [] [("AC-1", "fail")],
        a.control_id ∈ ([] : List String) := by
  decide

/-- C8 amended: every entry of the remediation plan either names a
control of the missing-controls list (as an implement action) or names
a control whose monitoring check status is "fail" (as a remediate
action). -/
theorem remediation_plan_sources (missing : List String)
    (monitoring : List (String × String)) (a : RemediationAction)
    (ha : a ∈ remediationActions missing monitoring) :
    (a.control_id ∈ missing ∧ a.action_type = "implement") ∨
    ((a.control_id, "fail") ∈ monitoring ∧ a.action_type = "remediate") := by
  simp only [remediationActions, List.mem_append, List.mem_map,
    List.mem_filter, beq_iff_eq] at ha
  rcases ha with ⟨c, hc, rfl⟩ | ⟨p, ⟨hp, hfail⟩, rfl⟩
  · exact Or.inl ⟨hc, rfl⟩
  · refine Or.inr ⟨?_, rfl⟩
    cases p with
    | mk c s =>
        cases hfail
        exact hp

/-- Witness for remediation_plan_sources at a concrete plan entry. -/
theorem remediation_plan_sources_witness :
    (⟨"AC-1", "remediate", "critical",
       "Address monitoring failure for AC-1"⟩ : RemediationAction) ∈
      remediationActions [] [("AC-1", "fail")] ∧
    (((⟨"AC-1", "remediate", "critical",
        "Address monitoring failure for AC-1"⟩ :
          RemediationAction).control_id ∈ ([] : List String) ∧
      (⟨"AC-1", "remediate", "critical",
        "Address monitoring failure for AC-1"⟩ :
          RemediationAction).action_type = "implement") ∨
     ((((⟨"AC-1", "remediate", "critical",
          "Address monitoring failure for AC-1"⟩ :
            RemediationAction).control_id, "fail") ∈
         [("AC-1", "fail")]) ∧
      (⟨"AC-1", "remediate", "critical",
        "Address monitoring failure for AC-1"⟩ :
          RemediationAction).action_type = "remediate")) :=
  ⟨by decide,
   remediation_plan_sources [] [("AC-1", "fail")]
     ⟨"AC-1", "remediate", "critical",
      "Address monitoring failure for AC-1"⟩ (by decide)⟩

end NistMcp
